import Mathlib

/-!
# Verification of the SpeakMCP rust platform helper (`speakmcp-rs/src/main.rs`)

Shallow embedding of the helper process: the platform probe
(`check_platform_requirements`, `get_platform_info`), the event normalizer
(`deal_event_to_json`), the JSON serialization it relies on, the `write_text`
command, `show_platform_info`, the `listen` callback, and the top-level
dispatcher `main`.  OS-conditional compilation (`#[cfg(target_os = ...)]`) is
embedded as an explicit `OS` parameter; environment variables are explicit
`Option String` inputs; the external capability providers (enigo text
injection, rdev hook) are explicit result-valued inputs, with invocation
traces recorded so that claims about "never invokes the provider" are
statable.
-/

namespace SpeakMCP

/-- The operating-system family selected by `#[cfg(target_os = ...)]`. -/
inductive OS where
  | macos
  | linux
  | windows
  | other
deriving DecidableEq, Repr

/-- Source `enum PlatformError`. -/
inductive PlatformError where
  | AccessibilityDenied
  | WaylandNotSupported
  | X11NotAvailable
  | PlatformNotSupported
  | InitializationFailed (msg : String)
deriving DecidableEq, Repr

/-- Source `impl Display for PlatformError`: the rendered one-line message. -/
def PlatformError.render : PlatformError → String
  | .AccessibilityDenied => "macOS Accessibility permissions required"
  | .WaylandNotSupported => "Wayland is not supported, X11 session required"
  | .X11NotAvailable => "X11 display server not available"
  | .PlatformNotSupported => "Platform not supported"
  | .InitializationFailed msg => "Platform initialization failed: " ++ msg

/-- The three Linux environment variables the probe reads.  `none` models
`std::env::var` returning `Err` (variable absent). -/
structure LinuxEnv where
  wayland_display : Option String
  display : Option String
  xdg_session_type : Option String
deriving DecidableEq, Repr

/-- Rust `str::to_lowercase`, modelled on the underlying character list.
The program only uses it to compare against the ASCII literal "wayland". -/
def toLowerStr (s : String) : String :=
  String.mk (s.data.map Char.toLower)

/-- Source `check_linux_display_server`: the Linux branch of the
platform probe, a function of the three environment variables. -/
def check_linux_display_server (env : LinuxEnv) : Except PlatformError Unit :=
  if env.wayland_display.isSome then
    match env.xdg_session_type with
    | some session_type =>
        if toLowerStr session_type = "wayland" then
          Except.error PlatformError.WaylandNotSupported
        else if env.display.isNone then
          Except.error PlatformError.WaylandNotSupported
        else if env.display.isNone then
          Except.error PlatformError.X11NotAvailable
        else
          Except.ok ()
    | none =>
        if env.display.isNone then
          Except.error PlatformError.WaylandNotSupported
        else if env.display.isNone then
          Except.error PlatformError.X11NotAvailable
        else
          Except.ok ()
  else
    if env.display.isNone then
      Except.error PlatformError.X11NotAvailable
    else
      Except.ok ()

/-- Source `platform::check_platform_requirements`, with the `#[cfg]` branches made
explicit over the `OS` tag.  The macOS branch (`check_macos_accessibility`)
only prints warnings to stderr and returns `Ok(())`. -/
def check_platform_requirements (os : OS) (env : LinuxEnv) :
    Except PlatformError Unit :=
  match os with
  | .macos => Except.ok ()
  | .linux => check_linux_display_server env
  | .windows => Except.ok ()
  | .other => Except.error PlatformError.PlatformNotSupported

/-- Source `platform::get_platform_info`, with the `#[cfg]` branches made explicit. -/
def get_platform_info (os : OS) (env : LinuxEnv) : String :=
  match os with
  | .windows => "Windows"
  | .macos => "macOS"
  | .linux =>
      let display_server :=
        if env.wayland_display.isSome then ("Wayland")
        else if env.display.isSome then ("X11")
        else ("Unknown")
      "Linux (" ++ display_server ++ ")"
  | .other => "Unsupported"

/-! ## JSON model (serde_json values and `to_string` serialization) -/

/-- A `serde_json::Value`.  Numbers are modelled as integers: the only numeric
payloads (`x`, `y`, `delta_x`, `delta_y`) are claims-irrelevant beyond their
field names, so exact float rendering is not modelled. -/
inductive Json where
  | null
  | bool (b : Bool)
  | num (n : Int)
  | str (s : String)
  | arr (xs : List Json)
  | obj (fields : List (String × Json))

/-- Hexadecimal digit. -/
def hexDigit (n : Nat) : Char :=
  if n < 10 then Char.ofNat (48 + n) else Char.ofNat (87 + (n % 16))

/-- serde_json string escaping of a single character. -/
def escapeChar (c : Char) : String :=
  if c = '"' then ("\\\"")
  else if c = '\\' then ("\\\\")
  else if c = '\n' then ("\\n")
  else if c = '\r' then ("\\r")
  else if c = '\t' then ("\\t")
  else if c.toNat = 8 then ("\\b")
  else if c.toNat = 12 then ("\\f")
  else if c.toNat < 32 then
    ("\\u00") ++ String.singleton (hexDigit (c.toNat / 16))
            ++ String.singleton (hexDigit (c.toNat % 16))
  else String.singleton c

/-- serde_json escaping of a whole string (without surrounding quotes). -/
def escapeString (s : String) : String :=
  String.join (s.toList.map escapeChar)

/-- A JSON string literal, quotes included. -/
def quoteString (s : String) : String :=
  "\"" ++ escapeString s ++ "\""

mutual
/-- Serialization `serde_json::to_string`: compact, no spaces. -/
def Json.serialize : Json → String
  | .null => "null"
  | .bool true => "true"
  | .bool false => "false"
  | .num n => toString n
  | .str s => quoteString s
  | .arr xs => "[" ++ Json.serializeList xs ++ "]"
  | .obj fs => "\x7b" ++ Json.serializeFields fs ++ "\x7d"

/-- Comma-separated serialization of array elements. -/
def Json.serializeList : List Json → String
  | [] => ""
  | [x] => Json.serialize x
  | x :: xs => Json.serialize x ++ "," ++ Json.serializeList xs

/-- Comma-separated serialization of object fields. -/
def Json.serializeFields : List (String × Json) → String
  | [] => ""
  | [(k, v)] => quoteString k ++ ":" ++ Json.serialize v
  | (k, v) :: fs => quoteString k ++ ":" ++ Json.serialize v ++ ","
      ++ Json.serializeFields fs
end

/-- Look up a field of a JSON object (first match, as serde would emit it). -/
def Json.getField (j : Json) (key : String) : Option Json :=
  match j with
  | .obj fs => (fs.find? (fun kv => kv.1 = key)).map (·.2)
  | _ => none

/-- The field names of a JSON object, in order. -/
def Json.fieldNames : Json → List String
  | .obj fs => fs.map (·.1)
  | _ => []

/-! ## Native events (rdev) and the normalizer -/

/-- Timestamp `std::time::SystemTime` as serde serializes it: seconds and nanoseconds
since the epoch. -/
structure SystemTime where
  secs_since_epoch : Nat
  nanos_since_epoch : Nat
deriving DecidableEq, Repr

/-- An `rdev::Key`, modelled by its debug-formatted identifier (the only view
of it the program uses is `format!("{:?}", key)`). -/
structure Key where
  dbg : String
deriving DecidableEq, Repr

/-- An `rdev::Button`, modelled by its debug-formatted identifier. -/
structure Button where
  dbg : String
deriving DecidableEq, Repr

/-- Debug formatting `format!("{:?}", key)` for an `rdev::Key`. -/
def Key.formatDebug (k : Key) : String := k.dbg

/-- Debug formatting `format!("{:?}", button)` for an `rdev::Button`. -/
def Button.formatDebug (b : Button) : String := b.dbg

/-- Source `rdev::EventType`: the six native event shapes.  `MouseMove` coordinates
are `f64` and `Wheel` deltas are `i64` in the source; both are modelled as
`Int` (their values flow through untouched into JSON numbers). -/
inductive EventType where
  | KeyPress (key : Key)
  | KeyRelease (key : Key)
  | MouseMove (x y : Int)
  | ButtonPress (button : Button)
  | ButtonRelease (button : Button)
  | Wheel (delta_x delta_y : Int)
deriving DecidableEq, Repr

/-- Source `rdev::Event`: the native event record. -/
structure Event where
  event_type : EventType
  name : Option String
  time : SystemTime
deriving DecidableEq, Repr

/-- Source `struct RdevEvent`: the canonical output record. -/
structure RdevEvent where
  event_type : String
  name : Option String
  time : SystemTime
  data : String
deriving DecidableEq, Repr

/-- The payload object built by the matching arm of `deal_event_to_json`
(the argument of `json!({...})` before `.to_string()`). -/
def payloadJson : EventType → Json
  | .KeyPress key => Json.obj [("key", Json.str key.formatDebug)]
  | .KeyRelease key => Json.obj [("key", Json.str key.formatDebug)]
  | .MouseMove x y => Json.obj [("x", Json.num x), ("y", Json.num y)]
  | .ButtonPress button => Json.obj [("key", Json.str button.formatDebug)]
  | .ButtonRelease button => Json.obj [("key", Json.str button.formatDebug)]
  | .Wheel dx dy => Json.obj [("delta_x", Json.num dx), ("delta_y", Json.num dy)]

/-- The `event_type` label string set by the matching arm of
`deal_event_to_json`. -/
def eventTypeLabel : EventType → String
  | .KeyPress _ => "KeyPress"
  | .KeyRelease _ => "KeyRelease"
  | .MouseMove _ _ => "MouseMove"
  | .ButtonPress _ => "ButtonPress"
  | .ButtonRelease _ => "ButtonRelease"
  | .Wheel _ _ => "Wheel"

/-- Source `deal_event_to_json`: copies `name` and `time`, then sets
`event_type` and `data` per event shape, `data` being the `.to_string()` of
the `json!` payload. -/
def deal_event_to_json (event : Event) : RdevEvent :=
  { event_type := eventTypeLabel event.event_type
    name := event.name
    time := event.time
    data := (payloadJson event.event_type).serialize }

/-- serde serialization of `time : std::time::SystemTime`. -/
def SystemTime.toJson (t : SystemTime) : Json :=
  Json.obj [("secs_since_epoch", Json.num t.secs_since_epoch),
            ("nanos_since_epoch", Json.num t.nanos_since_epoch)]

/-- The `#[derive(Serialize)]` instance of `RdevEvent`: fields in declaration
order, `Option` as null-or-value, `data` as a plain JSON string. -/
def RdevEvent.toJson (e : RdevEvent) : Json :=
  Json.obj [("event_type", Json.str e.event_type),
            ("name", match e.name with
                     | some n => Json.str n
                     | none => Json.null),
            ("time", e.time.toJson),
            ("data", Json.str e.data)]

/-- Serialization `serde_json::to_string(&event)` for the output record. -/
def RdevEvent.serialize (e : RdevEvent) : String :=
  e.toJson.serialize

/-! ## Capability providers and the command dispatcher -/

/-- Outcomes of the external capability providers: `Enigo::new`, `enigo.text`,
and `rdev::listen`.  They are opaque collaborators, so their results are
inputs to the model; errors carry their rendered message. -/
structure Providers where
  enigoNew : Except String Unit
  enigoText : String → Except String Unit
  listenLoop : Except String Unit
  events : List Event

/-- A `write_text` failure, tagged by the stage that produced it. -/
inductive WriteError where
  | platform (e : PlatformError)
  | enigoNew (msg : String)
  | enigoText (msg : String)
deriving DecidableEq, Repr

/-- Result of running `write_text`: the `Result` value together with the trace
of provider invocations (`enigoNewCalled` for `Enigo::new`, `injected` for the
texts passed to `enigo.text`, in order). -/
structure WriteRun where
  result : Except WriteError Unit
  enigoNewCalled : Bool
  injected : List String

/-- Source `write_text`: platform gate, then `Enigo::new`, then
`enigo.text(text)`; each failure propagates.  Diagnostic `eprintln!` output is
not modelled (it is stderr only). -/
def write_text (os : OS) (env : LinuxEnv) (pv : Providers) (text : String) :
    WriteRun :=
  match check_platform_requirements os env with
  | .error e =>
      { result := .error (.platform e), enigoNewCalled := false, injected := [] }
  | .ok _ =>
      match pv.enigoNew with
      | .error e =>
          { result := .error (.enigoNew e), enigoNewCalled := true, injected := [] }
      | .ok _ =>
          match pv.enigoText text with
          | .ok _ =>
              { result := .ok (), enigoNewCalled := true, injected := [text] }
          | .error e =>
              { result := .error (.enigoText e), enigoNewCalled := true,
                injected := [text] }

/-- The closure passed to `rdev::listen` in `listen_for_events`: the stdout
lines produced for one native event.  Key events are normalized and printed
one serialized record per line; every other shape falls to `_ => {}`. -/
def listenCallback (event : Event) : List String :=
  match event.event_type with
  | .KeyPress _ => [(deal_event_to_json event).serialize]
  | .KeyRelease _ => [(deal_event_to_json event).serialize]
  | _ => []

/-- Result of running `listen_for_events`: the `Result`, whether the hook
provider (`rdev::listen`) was invoked, and the stdout lines emitted by the
callback over the native event stream. -/
structure ListenRun where
  result : Except String Unit
  hookCalled : Bool
  stdoutLines : List String

/-- Source `listen_for_events`: platform gate, then subscribe to the
hook; the callback output is the concatenation over the event stream. -/
def listen_for_events (os : OS) (env : LinuxEnv) (pv : Providers) : ListenRun :=
  match check_platform_requirements os env with
  | .error e =>
      { result := .error e.render, hookCalled := false, stdoutLines := [] }
  | .ok _ =>
      match pv.listenLoop with
      | .error e =>
          { result := .error ("Listen error: " ++ e), hookCalled := true,
            stdoutLines := pv.events.flatMap listenCallback }
      | .ok _ =>
          { result := .ok (), hookCalled := true,
            stdoutLines := pv.events.flatMap listenCallback }

/-- The macOS remediation hint printed by `show_platform_info` for
`AccessibilityDenied`. -/
def grantHint : String :=
  "Resolution: Grant Accessibility permissions in System Preferences > Security & Privacy > Privacy > Accessibility"

/-- The Linux remediation hint printed by `show_platform_info` for
`WaylandNotSupported`. -/
def switchHint : String :=
  "Resolution: Switch to an X11 session or log out and select X11 at login screen"

/-- The status block of `show_platform_info`: the `match` on the probe result,
with the two `#[cfg]`-guarded remediation hints made explicit over `os`. -/
def statusLines (os : OS) : Except PlatformError Unit → List String
  | .ok _ => ["Status: Ready"]
  | .error e =>
      ("Status: Not ready - " ++ e.render) ::
      ((if os = OS.macos ∧ e = PlatformError.AccessibilityDenied then [grantHint]
        else []) ++
       (if os = OS.linux ∧ e = PlatformError.WaylandNotSupported then [switchHint]
        else []))

/-- The environment block of `show_platform_info`: the `#[cfg(target_os =
"linux")]` section printing each variable when present. -/
def envLines (os : OS) (env : LinuxEnv) : List String :=
  if os = OS.linux then
    (match env.display with
     | some display => ["X11 DISPLAY: " ++ display]
     | none => []) ++
    (match env.wayland_display with
     | some wayland_display => ["Wayland DISPLAY: " ++ wayland_display]
     | none => []) ++
    (match env.xdg_session_type with
     | some session_type => ["Session Type: " ++ session_type]
     | none => [])
  else []

/-- Source `show_platform_info`: the stdout lines it prints, with the
`#[cfg]`-guarded blocks made explicit over the `OS` tag. -/
def show_platform_info (os : OS) (env : LinuxEnv) : List String :=
  ("Platform: " ++ get_platform_info os env) ::
  statusLines os (check_platform_requirements os env) ++
  envLines os env

/-- Result of one whole process run of `main`: exit code, the stdout lines,
and the capability-provider invocation traces. -/
structure MainRun where
  exitCode : Nat
  stdoutLines : List String
  hookCalled : Bool
  enigoNewCalled : Bool
  injected : List String

/-- Source `main`: dispatch on `args.get(1)`.  `args` is the full
argv including the program name.  A `listen` run whose hook loop returns `Ok`
falls out of the `match` and the process exits 0 normally. -/
def main (os : OS) (env : LinuxEnv) (pv : Providers) (args : List String) :
    MainRun :=
  match args.get? 1 with
  | some verb =>
      if verb = "listen" then
        let r := listen_for_events os env pv
        { exitCode := match r.result with | .ok _ => 0 | .error _ => 1
          stdoutLines := r.stdoutLines
          hookCalled := r.hookCalled
          enigoNewCalled := false
          injected := [] }
      else if verb = "write" then
        if args.length < 3 then
          { exitCode := 1, stdoutLines := [], hookCalled := false,
            enigoNewCalled := false, injected := [] }
        else
          let text := args.getD 2 ("")
          let r := write_text os env pv text
          { exitCode := match r.result with | .ok _ => 0 | .error _ => 101
            stdoutLines := []
            hookCalled := false
            enigoNewCalled := r.enigoNewCalled
            injected := r.injected }
      else if verb = "info" then
        { exitCode := 0, stdoutLines := show_platform_info os env,
          hookCalled := false, enigoNewCalled := false, injected := [] }
      else
        { exitCode := 1, stdoutLines := [], hookCalled := false,
          enigoNewCalled := false, injected := [] }
  | none =>
      { exitCode := 1, stdoutLines := [], hookCalled := false,
        enigoNewCalled := false, injected := [] }

/-! ## Spec-side definitions (for refinement comparison)

These follow the wording of the specification (§4.2), to be compared against
the definitions transcribed from the source. -/

/-- Spec wording: "`XDG_SESSION_TYPE` case-insensitively equals \"wayland\"". -/
def sessionTypeIsWayland (env : LinuxEnv) : Bool :=
  match env.xdg_session_type with
  | some s => toLowerStr s = "wayland"
  | none => false

/-- The §4.2 Linux classification table, transcribed from the spec's words:
WaylandUnsupported if `WAYLAND_DISPLAY` is set and the session type is
"wayland"; else WaylandUnsupported if `WAYLAND_DISPLAY` is set and `DISPLAY`
is absent; else X11Unavailable if `DISPLAY` is absent; otherwise success. -/
def specLinuxClassification (env : LinuxEnv) : Except PlatformError Unit :=
  if env.wayland_display.isSome && sessionTypeIsWayland env then
    Except.error PlatformError.WaylandNotSupported
  else if env.wayland_display.isSome && env.display.isNone then
    Except.error PlatformError.WaylandNotSupported
  else if env.display.isNone then
    Except.error PlatformError.X11NotAvailable
  else
    Except.ok ()

/-- A provider assignment where every capability call succeeds. -/
def pvAllOk : Providers :=
  { enigoNew := Except.ok ()
    enigoText := fun _ => Except.ok ()
    listenLoop := Except.ok ()
    events := [] }

/-- A provider assignment where every capability call fails. -/
def pvAllFail : Providers :=
  { enigoNew := Except.error ("provider failure")
    enigoText := fun _ => Except.error ("provider failure")
    listenLoop := Except.error ("provider failure")
    events := [] }

/-! ## Shared helper lemmas -/

/-- Two strings differing at some character position are different. -/
theorem ne_of_data_get (i : Nat) (c1 c2 : Char) (s t : String)
    (h1 : s.data.get? i = some c1) (h2 : t.data.get? i = some c2)
    (hne : c1 ≠ c2) : s ≠ t := by
  intro he
  rw [he, h2] at h1
  exact hne (Option.some.inj h1.symm)

/-- String append is left-cancellative (via the underlying character list). -/
theorem string_append_right_inj (p a b : String) : p ++ a = p ++ b ↔ a = b := by
  constructor
  · intro h
    have hd : p.data ++ a.data = p.data ++ b.data := congrArg String.data h
    have : a.data = b.data := List.append_cancel_left hd
    exact congrArg String.mk this
  · intro h; rw [h]

/-- An "X11 DISPLAY: " line never equals a "Platform: " line. -/
theorem x11_ne_platform (a b : String) :
    "X11 DISPLAY: " ++ a ≠ "Platform: " ++ b :=
  ne_of_data_get 0 'X' 'P' _ _ rfl rfl (by decide)

/-- An "X11 DISPLAY: " line never equals the ready status line. -/
theorem x11_ne_ready (a : String) : "X11 DISPLAY: " ++ a ≠ "Status: Ready" :=
  ne_of_data_get 0 'X' 'S' _ _ rfl rfl (by decide)

/-- An "X11 DISPLAY: " line never equals a not-ready status line. -/
theorem x11_ne_notready (a b : String) :
    "X11 DISPLAY: " ++ a ≠ "Status: Not ready - " ++ b :=
  ne_of_data_get 0 'X' 'S' _ _ rfl rfl (by decide)

/-- An "X11 DISPLAY: " line never equals the Wayland remediation hint. -/
theorem x11_ne_switchHint (a : String) : "X11 DISPLAY: " ++ a ≠ switchHint :=
  ne_of_data_get 0 'X' 'R' _ _ rfl rfl (by decide)

/-- An "X11 DISPLAY: " line never equals a "Wayland DISPLAY: " line. -/
theorem x11_ne_wayland (a b : String) :
    "X11 DISPLAY: " ++ a ≠ "Wayland DISPLAY: " ++ b :=
  ne_of_data_get 0 'X' 'W' _ _ rfl rfl (by decide)

/-- An "X11 DISPLAY: " line never equals a "Session Type: " line. -/
theorem x11_ne_session (a b : String) :
    "X11 DISPLAY: " ++ a ≠ "Session Type: " ++ b :=
  ne_of_data_get 0 'X' 'S' _ _ rfl rfl (by decide)

/-- A "Wayland DISPLAY: " line never equals a "Platform: " line. -/
theorem wayland_ne_platform (a b : String) :
    "Wayland DISPLAY: " ++ a ≠ "Platform: " ++ b :=
  ne_of_data_get 0 'W' 'P' _ _ rfl rfl (by decide)

/-- A "Wayland DISPLAY: " line never equals the ready status line. -/
theorem wayland_ne_ready (a : String) :
    "Wayland DISPLAY: " ++ a ≠ "Status: Ready" :=
  ne_of_data_get 0 'W' 'S' _ _ rfl rfl (by decide)

/-- A "Wayland DISPLAY: " line never equals a not-ready status line. -/
theorem wayland_ne_notready (a b : String) :
    "Wayland DISPLAY: " ++ a ≠ "Status: Not ready - " ++ b :=
  ne_of_data_get 0 'W' 'S' _ _ rfl rfl (by decide)

/-- A "Wayland DISPLAY: " line never equals the Wayland remediation hint. -/
theorem wayland_ne_switchHint (a : String) :
    "Wayland DISPLAY: " ++ a ≠ switchHint :=
  ne_of_data_get 0 'W' 'R' _ _ rfl rfl (by decide)

/-- A "Wayland DISPLAY: " line never equals an "X11 DISPLAY: " line. -/
theorem wayland_ne_x11 (a b : String) :
    "Wayland DISPLAY: " ++ a ≠ "X11 DISPLAY: " ++ b :=
  ne_of_data_get 0 'W' 'X' _ _ rfl rfl (by decide)

/-- A "Wayland DISPLAY: " line never equals a "Session Type: " line. -/
theorem wayland_ne_session (a b : String) :
    "Wayland DISPLAY: " ++ a ≠ "Session Type: " ++ b :=
  ne_of_data_get 0 'W' 'S' _ _ rfl rfl (by decide)

/-- A "Session Type: " line never equals a "Platform: " line. -/
theorem session_ne_platform (a b : String) :
    "Session Type: " ++ a ≠ "Platform: " ++ b :=
  ne_of_data_get 0 'S' 'P' _ _ rfl rfl (by decide)

/-- A "Session Type: " line never equals the ready status line. -/
theorem session_ne_ready (a : String) :
    "Session Type: " ++ a ≠ "Status: Ready" :=
  ne_of_data_get 1 'e' 't' _ _ rfl rfl (by decide)

/-- A "Session Type: " line never equals a not-ready status line. -/
theorem session_ne_notready (a b : String) :
    "Session Type: " ++ a ≠ "Status: Not ready - " ++ b :=
  ne_of_data_get 1 'e' 't' _ _ rfl rfl (by decide)

/-- A "Session Type: " line never equals the Wayland remediation hint. -/
theorem session_ne_switchHint (a : String) :
    "Session Type: " ++ a ≠ switchHint :=
  ne_of_data_get 0 'S' 'R' _ _ rfl rfl (by decide)

/-- A "Session Type: " line never equals an "X11 DISPLAY: " line. -/
theorem session_ne_x11 (a b : String) :
    "Session Type: " ++ a ≠ "X11 DISPLAY: " ++ b :=
  ne_of_data_get 0 'S' 'X' _ _ rfl rfl (by decide)

/-- A "Session Type: " line never equals a "Wayland DISPLAY: " line. -/
theorem session_ne_wayland (a b : String) :
    "Session Type: " ++ a ≠ "Wayland DISPLAY: " ++ b :=
  ne_of_data_get 0 'S' 'W' _ _ rfl rfl (by decide)

/-- The accessibility hint never equals a "Platform: " line. -/
theorem grant_ne_platform (b : String) : grantHint ≠ "Platform: " ++ b :=
  ne_of_data_get 0 'R' 'P' _ _ rfl rfl (by decide)

/-- The accessibility hint never equals the ready status line. -/
theorem grant_ne_ready : grantHint ≠ "Status: Ready" :=
  ne_of_data_get 0 'R' 'S' _ _ rfl rfl (by decide)

/-- The accessibility hint never equals a not-ready status line. -/
theorem grant_ne_notready (b : String) :
    grantHint ≠ "Status: Not ready - " ++ b :=
  ne_of_data_get 0 'R' 'S' _ _ rfl rfl (by decide)

/-- The accessibility hint never equals the Wayland remediation hint. -/
theorem grant_ne_switchHint : grantHint ≠ switchHint :=
  ne_of_data_get 12 'G' 'S' _ _ rfl rfl (by decide)

/-- The accessibility hint never equals an "X11 DISPLAY: " line. -/
theorem grant_ne_x11 (b : String) : grantHint ≠ "X11 DISPLAY: " ++ b :=
  ne_of_data_get 0 'R' 'X' _ _ rfl rfl (by decide)

/-- The accessibility hint never equals a "Wayland DISPLAY: " line. -/
theorem grant_ne_wayland (b : String) : grantHint ≠ "Wayland DISPLAY: " ++ b :=
  ne_of_data_get 0 'R' 'W' _ _ rfl rfl (by decide)

/-- The accessibility hint never equals a "Session Type: " line. -/
theorem grant_ne_session (b : String) : grantHint ≠ "Session Type: " ++ b :=
  ne_of_data_get 0 'R' 'S' _ _ rfl rfl (by decide)

/-- No "X11 DISPLAY: " line occurs in the Linux status block. -/
theorem statusLines_linux_no_x11 (r : Except PlatformError Unit) (a : String) :
    ("X11 DISPLAY: " ++ a) ∉ statusLines OS.linux r := by
  cases r with
  | ok u => simp [statusLines, x11_ne_ready]
  | error e =>
      by_cases he : e = PlatformError.WaylandNotSupported <;>
        simp [statusLines, he, x11_ne_notready, x11_ne_switchHint]

/-- No "Wayland DISPLAY: " line occurs in the Linux status block. -/
theorem statusLines_linux_no_wayland (r : Except PlatformError Unit) (a : String) :
    ("Wayland DISPLAY: " ++ a) ∉ statusLines OS.linux r := by
  cases r with
  | ok u => simp [statusLines, wayland_ne_ready]
  | error e =>
      by_cases he : e = PlatformError.WaylandNotSupported <;>
        simp [statusLines, he, wayland_ne_notready, wayland_ne_switchHint]

/-- No "Session Type: " line occurs in the Linux status block. -/
theorem statusLines_linux_no_session (r : Except PlatformError Unit) (a : String) :
    ("Session Type: " ++ a) ∉ statusLines OS.linux r := by
  cases r with
  | ok u => simp [statusLines, session_ne_ready]
  | error e =>
      by_cases he : e = PlatformError.WaylandNotSupported <;>
        simp [statusLines, he, session_ne_notready, session_ne_switchHint]

/-- An "X11 DISPLAY: " line occurs in the Linux environment block exactly for
the present `DISPLAY` value. -/
theorem envLines_x11_iff (env : LinuxEnv) (a : String) :
    ("X11 DISPLAY: " ++ a) ∈ envLines OS.linux env ↔ env.display = some a := by
  obtain ⟨w, d, x⟩ := env
  cases w <;> cases d <;> cases x <;>
    simp [envLines, x11_ne_wayland, x11_ne_session, string_append_right_inj] <;>
    exact ⟨Eq.symm, Eq.symm⟩

/-- A "Wayland DISPLAY: " line occurs in the Linux environment block exactly
for the present `WAYLAND_DISPLAY` value. -/
theorem envLines_wayland_iff (env : LinuxEnv) (a : String) :
    ("Wayland DISPLAY: " ++ a) ∈ envLines OS.linux env ↔
      env.wayland_display = some a := by
  obtain ⟨w, d, x⟩ := env
  cases w <;> cases d <;> cases x <;>
    simp [envLines, wayland_ne_x11, wayland_ne_session, string_append_right_inj] <;>
    exact ⟨Eq.symm, Eq.symm⟩

/-- A "Session Type: " line occurs in the Linux environment block exactly for
the present `XDG_SESSION_TYPE` value. -/
theorem envLines_session_iff (env : LinuxEnv) (a : String) :
    ("Session Type: " ++ a) ∈ envLines OS.linux env ↔
      env.xdg_session_type = some a := by
  obtain ⟨w, d, x⟩ := env
  cases w <;> cases d <;> cases x <;>
    simp [envLines, session_ne_x11, session_ne_wayland, string_append_right_inj] <;>
    exact ⟨Eq.symm, Eq.symm⟩

/-- The accessibility hint never occurs in the environment block. -/
theorem envLines_no_grant (os : OS) (env : LinuxEnv) :
    grantHint ∉ envLines os env := by
  obtain ⟨w, d, x⟩ := env
  by_cases hos : os = OS.linux
  · cases w <;> cases d <;> cases x <;>
      simp [envLines, hos, grant_ne_x11, grant_ne_wayland, grant_ne_session]
  · simp [envLines, hos]

/-- On Linux the probe returns only success, WaylandNotSupported, or
X11NotAvailable. -/
theorem linux_check_result (env : LinuxEnv) :
    check_linux_display_server env = Except.ok () ∨
    check_linux_display_server env =
      Except.error PlatformError.WaylandNotSupported ∨
    check_linux_display_server env =
      Except.error PlatformError.X11NotAvailable := by
  obtain ⟨w, d, x⟩ := env
  rcases w with _ | w0 <;> rcases d with _ | d0 <;> rcases x with _ | x0
  · right; right; rfl
  · right; right; rfl
  · left; rfl
  · left; rfl
  · right; left; rfl
  · by_cases ht : toLowerStr x0 = "wayland" <;> right <;> left <;>
      simp [check_linux_display_server, ht]
  · left; rfl
  · by_cases ht : toLowerStr x0 = "wayland"
    · right; left; simp [check_linux_display_server, ht]
    · left; simp [check_linux_display_server, ht]

/-! ## Claim theorems -/

/-- Claim C1: on Linux, `check_platform_requirements` is a pure function of
the three environment variables `WAYLAND_DISPLAY`, `DISPLAY`,
`XDG_SESSION_TYPE`, and for every combination of their presence and content
it agrees with the §4.2 classification table: WaylandUnsupported when
`WAYLAND_DISPLAY` is set and `XDG_SESSION_TYPE` case-insensitively equals
"wayland"; else WaylandUnsupported when `WAYLAND_DISPLAY` is set and
`DISPLAY` is absent; else X11Unavailable when `DISPLAY` is absent; otherwise
success. -/
theorem linux_probe_matches_spec_table (env : LinuxEnv) :
    check_platform_requirements OS.linux env = specLinuxClassification env := by
  obtain ⟨w, d, x⟩ := env
  cases w <;> cases d <;> cases x <;>
    simp [check_platform_requirements, check_linux_display_server,
      specLinuxClassification, sessionTypeIsWayland]

/-- Claim C2, counterexample: for a concrete Wheel event the normalizer's
payload fields are `delta_x` and `delta_y`, not the `deltaX` and `deltaY` the
claim states; the emitted `data` bytes differ from what serializing a
`deltaX`/`deltaY` object would give. -/
theorem wheel_payload_fields_counterexample :
    (payloadJson (EventType.Wheel 3 4)).fieldNames ≠ ["deltaX", "deltaY"] ∧
    (payloadJson (EventType.Wheel 3 4)).fieldNames = ["delta_x", "delta_y"] ∧
    (deal_event_to_json
        { event_type := EventType.Wheel 3 4, name := none,
          time := { secs_since_epoch := 0, nanos_since_epoch := 0 } }).data =
      "\x7b\"delta_x\":3,\"delta_y\":4\x7d" := by
  refine ⟨by decide, by decide, by decide⟩

/-- Claim C2 (amended): for each of the six native event kinds, the
normalizer's `eventType` label equals the kind's name exactly, and the `data`
payload is the serialization of an object with exactly the §4.3 fields:
`key` for KeyPress/KeyRelease/ButtonPress/ButtonRelease, `x` and `y` for
MouseMove, and `delta_x` and `delta_y` (snake_case, not `deltaX`/`deltaY`)
for Wheel. -/
theorem normalizer_schema_table :
    (∀ (k : Key) (n : Option String) (t : SystemTime),
      (deal_event_to_json ⟨.KeyPress k, n, t⟩).event_type = "KeyPress" ∧
      (deal_event_to_json ⟨.KeyPress k, n, t⟩).data =
        (Json.obj [("key", Json.str k.formatDebug)]).serialize) ∧
    (∀ (k : Key) (n : Option String) (t : SystemTime),
      (deal_event_to_json ⟨.KeyRelease k, n, t⟩).event_type = "KeyRelease" ∧
      (deal_event_to_json ⟨.KeyRelease k, n, t⟩).data =
        (Json.obj [("key", Json.str k.formatDebug)]).serialize) ∧
    (∀ (x y : Int) (n : Option String) (t : SystemTime),
      (deal_event_to_json ⟨.MouseMove x y, n, t⟩).event_type = "MouseMove" ∧
      (deal_event_to_json ⟨.MouseMove x y, n, t⟩).data =
        (Json.obj [("x", Json.num x), ("y", Json.num y)]).serialize) ∧
    (∀ (b : Button) (n : Option String) (t : SystemTime),
      (deal_event_to_json ⟨.ButtonPress b, n, t⟩).event_type = "ButtonPress" ∧
      (deal_event_to_json ⟨.ButtonPress b, n, t⟩).data =
        (Json.obj [("key", Json.str b.formatDebug)]).serialize) ∧
    (∀ (b : Button) (n : Option String) (t : SystemTime),
      (deal_event_to_json ⟨.ButtonRelease b, n, t⟩).event_type = "ButtonRelease" ∧
      (deal_event_to_json ⟨.ButtonRelease b, n, t⟩).data =
        (Json.obj [("key", Json.str b.formatDebug)]).serialize) ∧
    (∀ (dx dy : Int) (n : Option String) (t : SystemTime),
      (deal_event_to_json ⟨.Wheel dx dy, n, t⟩).event_type = "Wheel" ∧
      (deal_event_to_json ⟨.Wheel dx dy, n, t⟩).data =
        (Json.obj [("delta_x", Json.num dx), ("delta_y", Json.num dy)]).serialize) :=
  ⟨fun _ _ _ => ⟨rfl, rfl⟩, fun _ _ _ => ⟨rfl, rfl⟩, fun _ _ _ _ => ⟨rfl, rfl⟩,
   fun _ _ _ => ⟨rfl, rfl⟩, fun _ _ _ => ⟨rfl, rfl⟩, fun _ _ _ _ => ⟨rfl, rfl⟩⟩

/-- Claim C3: the normalizer is a total Lean function over the six event
shapes (so it cannot fail), and for every input event it carries over the
native event's `name` and `time` fields unchanged. -/
theorem normalizer_preserves_name_time (e : Event) :
    (deal_event_to_json e).name = e.name ∧
    (deal_event_to_json e).time = e.time :=
  ⟨rfl, rfl⟩

/-- Claim C7: the listen callback writes exactly one serialized
CanonicalEvent line for a KeyPress or KeyRelease event, and writes no output
record for MouseMove, ButtonPress, ButtonRelease, or Wheel events. -/
theorem listen_emits_only_key_events :
    (∀ (k : Key) (n : Option String) (t : SystemTime),
      listenCallback ⟨.KeyPress k, n, t⟩ =
        [(deal_event_to_json ⟨.KeyPress k, n, t⟩).serialize]) ∧
    (∀ (k : Key) (n : Option String) (t : SystemTime),
      listenCallback ⟨.KeyRelease k, n, t⟩ =
        [(deal_event_to_json ⟨.KeyRelease k, n, t⟩).serialize]) ∧
    (∀ (x y : Int) (n : Option String) (t : SystemTime),
      listenCallback ⟨.MouseMove x y, n, t⟩ = []) ∧
    (∀ (b : Button) (n : Option String) (t : SystemTime),
      listenCallback ⟨.ButtonPress b, n, t⟩ = []) ∧
    (∀ (b : Button) (n : Option String) (t : SystemTime),
      listenCallback ⟨.ButtonRelease b, n, t⟩ = []) ∧
    (∀ (dx dy : Int) (n : Option String) (t : SystemTime),
      listenCallback ⟨.Wheel dx dy, n, t⟩ = []) :=
  ⟨fun _ _ _ => rfl, fun _ _ _ => rfl, fun _ _ _ _ => rfl,
   fun _ _ _ => rfl, fun _ _ _ => rfl, fun _ _ _ _ => rfl⟩

/-- Claim C8: on Linux, `get_platform_info` depends only on `WAYLAND_DISPLAY`
and `DISPLAY` (changing `XDG_SESSION_TYPE` never changes it), and returns
"Linux (Wayland)" when `WAYLAND_DISPLAY` is set, "Linux (X11)" when only
`DISPLAY` is set, and "Linux (Unknown)" when neither is set. -/
theorem platform_info_linux_labels (env : LinuxEnv) (x : Option String) :
    get_platform_info OS.linux { env with xdg_session_type := x } =
      get_platform_info OS.linux env ∧
    get_platform_info OS.linux env =
      (if env.wayland_display.isSome then ("Linux (Wayland)")
       else if env.display.isSome then ("Linux (X11)")
       else ("Linux (Unknown)")) := by
  obtain ⟨w, d, _⟩ := env
  cases w <;> cases d <;> simp [get_platform_info]

/-- Claim C10: in every emitted record, the `data` field is a plain JSON
string (constructor `Json.str`, not a nested object) whose content is the
serialization of the payload object — the wire record double-encodes the
payload.  The concrete KeyPress example shows the doubly-encoded bytes. -/
theorem data_field_is_double_encoded_string (e : Event) :
    (∃ fs, (deal_event_to_json e).data = (Json.obj fs).serialize) ∧
    (deal_event_to_json e).toJson.getField ("data") =
      some (Json.str ((deal_event_to_json e).data)) ∧
    (deal_event_to_json
        { event_type := EventType.KeyPress { dbg := "KeyA" }, name := none,
          time := { secs_since_epoch := 0, nanos_since_epoch := 0 } }).data =
      "\x7b\"key\":\"KeyA\"\x7d" := by
  refine ⟨?_, by simp [RdevEvent.toJson, Json.getField], by decide⟩
  obtain ⟨et, n, t⟩ := e
  cases et <;> exact ⟨_, rfl⟩

/-- Claim C4: the dispatcher's exit code matches the §6 table in every case:
`info` always exits 0; `write` exits 0 on success, 1 when the text argument
is missing, 101 on any probe, init, or inject failure; `listen` exits 1 on
probe or hook failure; an unknown or missing verb exits 1. -/
theorem dispatcher_exit_codes (os : OS) (env : LinuxEnv) (pv : Providers)
    (prog text verb : String) (rest : List String) :
    (main os env pv [prog, "info"]).exitCode = 0 ∧
    (check_platform_requirements os env = Except.ok () →
      pv.enigoNew = Except.ok () →
      pv.enigoText text = Except.ok () →
      (main os env pv [prog, "write", text]).exitCode = 0) ∧
    (main os env pv [prog, "write"]).exitCode = 1 ∧
    (∀ e, check_platform_requirements os env = Except.error e →
      (main os env pv [prog, "write", text]).exitCode = 101) ∧
    (∀ m, check_platform_requirements os env = Except.ok () →
      pv.enigoNew = Except.error m →
      (main os env pv [prog, "write", text]).exitCode = 101) ∧
    (∀ m, check_platform_requirements os env = Except.ok () →
      pv.enigoNew = Except.ok () →
      pv.enigoText text = Except.error m →
      (main os env pv [prog, "write", text]).exitCode = 101) ∧
    (∀ e, check_platform_requirements os env = Except.error e →
      (main os env pv [prog, "listen"]).exitCode = 1) ∧
    (∀ m, check_platform_requirements os env = Except.ok () →
      pv.listenLoop = Except.error m →
      (main os env pv [prog, "listen"]).exitCode = 1) ∧
    (main os env pv [prog]).exitCode = 1 ∧
    (verb ≠ "listen" → verb ≠ "write" → verb ≠ "info" →
      (main os env pv (prog :: verb :: rest)).exitCode = 1) := by
  refine ⟨rfl, ?_, rfl, ?_, ?_, ?_, ?_, ?_, rfl, ?_⟩
  · intro h1 h2 h3
    simp [main, write_text, h1, h2, h3]
  · intro e h
    simp [main, write_text, h]
  · intro m h1 h2
    simp [main, write_text, h1, h2]
  · intro m h1 h2 h3
    simp [main, write_text, h1, h2, h3]
  · intro e h
    simp [main, listen_for_events, h]
  · intro m h1 h2
    simp [main, listen_for_events, h1, h2]
  · intro h1 h2 h3
    simp [main, h1, h2, h3]

/-- Witness for C4: concrete runs exercising the exit-code table. -/
theorem dispatcher_exit_codes_witness :
    (main OS.windows ⟨none, none, none⟩ pvAllOk ["prog", "write", "hi"]).exitCode = 0 ∧
    (main OS.other ⟨none, none, none⟩ pvAllOk ["prog", "write", "hi"]).exitCode = 101 ∧
    (main OS.windows ⟨none, none, none⟩ pvAllFail ["prog", "write", "hi"]).exitCode = 101 ∧
    (main OS.other ⟨none, none, none⟩ pvAllOk ["prog", "listen"]).exitCode = 1 ∧
    (main OS.windows ⟨none, none, none⟩ pvAllOk ["prog", "bogus"]).exitCode = 1 :=
  ⟨(dispatcher_exit_codes OS.windows ⟨none, none, none⟩ pvAllOk ("prog") ("hi") ("bogus") []).2.1
      rfl rfl rfl,
   (dispatcher_exit_codes OS.other ⟨none, none, none⟩ pvAllOk ("prog") ("hi") ("bogus") []).2.2.2.1
      PlatformError.PlatformNotSupported rfl,
   (dispatcher_exit_codes OS.windows ⟨none, none, none⟩ pvAllFail ("prog") ("hi") ("bogus") []).2.2.2.2.1
      ("provider failure") rfl rfl,
   (dispatcher_exit_codes OS.other ⟨none, none, none⟩ pvAllOk ("prog") ("hi") ("bogus") []).2.2.2.2.2.2.1
      PlatformError.PlatformNotSupported rfl,
   (dispatcher_exit_codes OS.windows ⟨none, none, none⟩ pvAllOk ("prog") ("hi") ("bogus") []).2.2.2.2.2.2.2.2.2
      (by decide) (by decide) (by decide)⟩

/-- Claim C5: `write` with zero extra arguments never invokes the injection
provider (neither its construction nor its `text` call); on the success path
the provider's `text` call happens exactly once, with the literal second
argument passed byte-for-byte, and the process exits 0. -/
theorem write_injection_trace (os : OS) (env : LinuxEnv) (pv : Providers)
    (prog text : String) :
    (main os env pv [prog, "write"]).injected = [] ∧
    (main os env pv [prog, "write"]).enigoNewCalled = false ∧
    (check_platform_requirements os env = Except.ok () →
      pv.enigoNew = Except.ok () →
      pv.enigoText text = Except.ok () →
      (main os env pv [prog, "write", text]).injected = [text] ∧
      (main os env pv [prog, "write", text]).exitCode = 0) := by
  refine ⟨rfl, rfl, ?_⟩
  intro h1 h2 h3
  constructor <;> simp [main, write_text, h1, h2, h3]

/-- Witness for C5: a concrete successful write run injecting "hello". -/
theorem write_injection_trace_witness :
    (main OS.windows ⟨none, none, none⟩ pvAllOk ["prog", "write", "hello"]).injected
      = ["hello"] ∧
    (main OS.windows ⟨none, none, none⟩ pvAllOk ["prog", "write", "hello"]).exitCode
      = 0 :=
  (write_injection_trace OS.windows ⟨none, none, none⟩ pvAllOk ("prog") ("hello")).2.2
    rfl rfl rfl

/-- Claim C6: the `info` command never invokes the hook or injection
providers, always exits 0 regardless of probe outcome, prints the platform
label first and then a status line ("Status: Ready" on probe success,
"Status: Not ready - " plus the rendered error on failure), and on Linux
prints the raw unmodified value of each of `DISPLAY`, `WAYLAND_DISPLAY`,
`XDG_SESSION_TYPE` exactly when that variable is present. -/
theorem info_command_properties (env : LinuxEnv) (pv : Providers)
    (prog : String) :
    (main OS.linux env pv [prog, "info"]).exitCode = 0 ∧
    (main OS.linux env pv [prog, "info"]).hookCalled = false ∧
    (main OS.linux env pv [prog, "info"]).enigoNewCalled = false ∧
    (main OS.linux env pv [prog, "info"]).injected = [] ∧
    (main OS.linux env pv [prog, "info"]).stdoutLines.head? =
      some ("Platform: " ++ get_platform_info OS.linux env) ∧
    (check_platform_requirements OS.linux env = Except.ok () →
      "Status: Ready" ∈ (main OS.linux env pv [prog, "info"]).stdoutLines) ∧
    (∀ e, check_platform_requirements OS.linux env = Except.error e →
      ("Status: Not ready - " ++ e.render) ∈
        (main OS.linux env pv [prog, "info"]).stdoutLines) ∧
    (∀ a, env.display = some a ↔
      ("X11 DISPLAY: " ++ a) ∈
        (main OS.linux env pv [prog, "info"]).stdoutLines) ∧
    (∀ a, env.wayland_display = some a ↔
      ("Wayland DISPLAY: " ++ a) ∈
        (main OS.linux env pv [prog, "info"]).stdoutLines) ∧
    (∀ a, env.xdg_session_type = some a ↔
      ("Session Type: " ++ a) ∈
        (main OS.linux env pv [prog, "info"]).stdoutLines) := by
  have hstd : (main OS.linux env pv [prog, "info"]).stdoutLines
      = show_platform_info OS.linux env := rfl
  refine ⟨rfl, rfl, rfl, rfl, rfl, ?_, ?_, ?_, ?_, ?_⟩
  · intro h
    rw [hstd]
    simp [show_platform_info, h, statusLines]
  · intro e h
    rw [hstd]
    simp [show_platform_info, h, statusLines]
  · intro a
    rw [hstd]
    simp only [show_platform_info, List.mem_cons, List.mem_append]
    simp [statusLines_linux_no_x11, envLines_x11_iff, x11_ne_platform]
  · intro a
    rw [hstd]
    simp only [show_platform_info, List.mem_cons, List.mem_append]
    simp [statusLines_linux_no_wayland, envLines_wayland_iff, wayland_ne_platform]
  · intro a
    rw [hstd]
    simp only [show_platform_info, List.mem_cons, List.mem_append]
    simp [statusLines_linux_no_session, envLines_session_iff, session_ne_platform]

/-- Witness for C6: concrete `info` runs, one with a ready probe and one with
a failing probe, checking exit code, traces, and printed lines. -/
theorem info_command_properties_witness :
    (main OS.linux ⟨some ("wayland-0"), some (":0"), some ("x11")⟩ pvAllOk
      ["prog", "info"]).exitCode = 0 ∧
    (main OS.linux ⟨some ("wayland-0"), some (":0"), some ("x11")⟩ pvAllOk
      ["prog", "info"]).hookCalled = false ∧
    (main OS.linux ⟨some ("wayland-0"), some (":0"), some ("x11")⟩ pvAllOk
      ["prog", "info"]).injected = [] ∧
    "Status: Ready" ∈ (main OS.linux ⟨some ("wayland-0"), some (":0"), some ("x11")⟩
      pvAllOk ["prog", "info"]).stdoutLines ∧
    ("X11 DISPLAY: " ++ ":0") ∈
      (main OS.linux ⟨some ("wayland-0"), some (":0"), some ("x11")⟩ pvAllOk
        ["prog", "info"]).stdoutLines ∧
    ("Status: Not ready - " ++ PlatformError.WaylandNotSupported.render) ∈
      (main OS.linux ⟨some ("wayland-0"), none, some ("wayland")⟩ pvAllOk
        ["prog", "info"]).stdoutLines :=
  ⟨(info_command_properties ⟨some ("wayland-0"), some (":0"), some ("x11")⟩ pvAllOk
      ("prog")).1,
   (info_command_properties ⟨some ("wayland-0"), some (":0"), some ("x11")⟩ pvAllOk
      ("prog")).2.1,
   (info_command_properties ⟨some ("wayland-0"), some (":0"), some ("x11")⟩ pvAllOk
      ("prog")).2.2.2.1,
   (info_command_properties ⟨some ("wayland-0"), some (":0"), some ("x11")⟩ pvAllOk
      ("prog")).2.2.2.2.2.1 rfl,
   ((info_command_properties ⟨some ("wayland-0"), some (":0"), some ("x11")⟩ pvAllOk
      ("prog")).2.2.2.2.2.2.2.1 (":0")).mp rfl,
   (info_command_properties ⟨some ("wayland-0"), none, some ("wayland")⟩ pvAllOk
      ("prog")).2.2.2.2.2.2.1 PlatformError.WaylandNotSupported rfl⟩

/-- Claim C9: for every OS family and environment, the probe never returns
`AccessibilityDenied` or `InitializationFailed` (on Linux its only failures
are WaylandNotSupported and X11Unavailable), so the `info` branch printing
the AccessibilityDenied remediation hint is unreachable: that hint line never
occurs in `show_platform_info` output. -/
theorem probe_error_kinds (os : OS) (env : LinuxEnv) :
    (∀ s, check_platform_requirements os env ≠
      Except.error (PlatformError.InitializationFailed s)) ∧
    check_platform_requirements os env ≠
      Except.error PlatformError.AccessibilityDenied ∧
    grantHint ∉ show_platform_info os env := by
  have hlin : ∀ e : LinuxEnv,
      (∀ s, check_linux_display_server e ≠
        Except.error (PlatformError.InitializationFailed s)) ∧
      check_linux_display_server e ≠
        Except.error PlatformError.AccessibilityDenied := by
    intro e
    rcases linux_check_result e with h | h | h <;> rw [h] <;>
      exact ⟨fun s => by simp, by simp⟩
  cases os with
  | macos =>
      refine ⟨fun s => by simp [check_platform_requirements],
        by simp [check_platform_requirements], ?_⟩
      simp [show_platform_info, check_platform_requirements, statusLines,
        envLines, grant_ne_platform, grant_ne_ready]
  | windows =>
      refine ⟨fun s => by simp [check_platform_requirements],
        by simp [check_platform_requirements], ?_⟩
      simp [show_platform_info, check_platform_requirements, statusLines,
        envLines, grant_ne_platform, grant_ne_ready]
  | other =>
      refine ⟨fun s => by simp [check_platform_requirements],
        by simp [check_platform_requirements], ?_⟩
      simp [show_platform_info, check_platform_requirements, statusLines,
        envLines, grant_ne_platform, grant_ne_notready]
  | linux =>
      refine ⟨(hlin env).1, (hlin env).2, ?_⟩
      rcases linux_check_result env with h | h | h <;>
        simp [show_platform_info, check_platform_requirements, h, statusLines,
          envLines_no_grant, grant_ne_platform, grant_ne_ready,
          grant_ne_notready, grant_ne_switchHint]

/-- Witness for C9: the probe's concrete outcome on an empty Linux
environment is not AccessibilityDenied. -/
theorem probe_error_kinds_witness :
    check_platform_requirements OS.linux ⟨none, none, none⟩ ≠
      Except.error PlatformError.AccessibilityDenied :=
  (probe_error_kinds OS.linux ⟨none, none, none⟩).2.1

end SpeakMCP
